import Mathlib

/- Verification development for the conflict-aware patch-update protocol of
   the Confluence MCP server (repository file mcp-server-stdio.js).

   Shallow embedding: the input validator validateInput (source lines 37-52),
   the change summarizer calculateContentDiff (lines 190-214) and the
   coordinator handleConfluencePatchUpdate (lines 216-313) are translated
   into executable Lean functions.  Network effects (one GET fetch and at
   most one PUT write) are made explicit: the environment Env fixes the
   responses of the remote store, and the result records how many fetch
   calls were made and the exact list of write requests issued. -/

namespace ConfluenceMcp

/-- Whitespace as stripped by the JavaScript String.prototype.trim on the
ASCII range: space, tab, line feed, carriage return, vertical tab, form
feed.  The claims only involve these characters. -/
def isJsSpace (c : Char) : Bool :=
  c == ' ' || c == '\t' || c == '\n' || c == '\r' ||
  c == Char.ofNat 11 || c == Char.ofNat 12

/-- Drop leading JavaScript whitespace from a character list. -/
def jsTrimLeftChars : List Char → List Char
  | [] => []
  | c :: cs => if isJsSpace c then jsTrimLeftChars cs else c :: cs

/-- Model of the JavaScript input.trim() used throughout the source:
strips leading and trailing whitespace. -/
def jsTrim (s : String) : String :=
  ⟨(jsTrimLeftChars ((jsTrimLeftChars s.data).reverse)).reverse⟩

/-- Whether the first character list starts with the second. -/
def charsStartWith : List Char → List Char → Bool
  | _, [] => true
  | [], _ :: _ => false
  | c :: cs, p :: ps => c == p && charsStartWith cs ps

/-- Whether the pattern occurs as a contiguous sublist. -/
def charsContain : List Char → List Char → Bool
  | [], pat => pat.isEmpty
  | c :: cs, pat => charsStartWith (c :: cs) pat || charsContain cs pat

/-- Model of the JavaScript String.prototype.includes substring test used
by the validator (source line 47).  Case sensitive, as in the source. -/
def strIncludes (s pat : String) : Bool :=
  charsContain s.data pat.data

/-- Split a character list at every newline character. -/
def splitLinesAux : List Char → List Char → List String
  | [], acc => [⟨acc.reverse⟩]
  | c :: cs, acc =>
    if c == '\n' then ⟨acc.reverse⟩ :: splitLinesAux cs []
    else splitLinesAux cs (c :: acc)

/-- The lines of a string, splitting at newline characters.  The empty
string has one empty line. -/
def splitLines (s : String) : List String :=
  splitLinesAux s.data []

/-- Tag of one diff segment: the Line Diff Engine classifies every segment
as added, removed or unchanged. -/
inductive SegKind where
  | added
  | removed
  | unchanged
  deriving DecidableEq

/-- One segment of a line diff: a tag plus a line count, mirroring the
count and added and removed fields of the parts returned by the diffLines
library function consumed at source lines 197-205. -/
structure DiffPart where
  kind : SegKind
  count : Nat
  deriving DecidableEq

/-- The added flag of a diff part as read by the summarizer loop. -/
def DiffPart.added (p : DiffPart) : Bool :=
  match p.kind with
  | SegKind.added => true
  | _ => false

/-- The removed flag of a diff part as read by the summarizer loop. -/
def DiffPart.removed (p : DiffPart) : Bool :=
  match p.kind with
  | SegKind.removed => true
  | _ => false

/-- Fuelled line edit distance between two line lists: the minimal number
of line additions plus removals turning the first into the second.  The
fuel argument makes the recursion structural; fuel at least the sum of
the lengths is always enough. -/
def distFuel : Nat → List String → List String → Nat
  | _, [], ys => ys.length
  | _, xs, [] => xs.length
  | 0, _ :: _, _ :: _ => 0
  | Nat.succ f, x :: xs, y :: ys =>
    if x == y then distFuel f xs ys
    else 1 + min (distFuel f xs (y :: ys)) (distFuel f (x :: xs) ys)

/-- Fuelled shortest-edit line diff producing ordered segments tagged
added, removed or unchanged, removals listed before additions. -/
def diffLFuel : Nat → List String → List String → List DiffPart
  | _, [], [] => []
  | _, [], ys => [⟨SegKind.added, ys.length⟩]
  | _, xs, [] => [⟨SegKind.removed, xs.length⟩]
  | 0, _ :: _, _ :: _ => []
  | Nat.succ f, x :: xs, y :: ys =>
    if x == y then ⟨SegKind.unchanged, 1⟩ :: diffLFuel f xs ys
    else if distFuel f xs (y :: ys) ≤ distFuel f (x :: xs) ys then
      ⟨SegKind.removed, 1⟩ :: diffLFuel f xs (y :: ys)
    else
      ⟨SegKind.added, 1⟩ :: diffLFuel f (x :: xs) ys

/-- Modelled from the spec: the Line Diff Engine, the diffLines function of
the external diff package required at source line 11, is not part of the
repository sources.  Per the spec it is a standard deterministic line-based
shortest-edit (Myers style) diff producing an ordered sequence of segments
tagged added, removed or unchanged, each with a line count. -/
def diffLines (oldStr newStr : String) : List DiffPart :=
  diffLFuel ((splitLines oldStr).length + (splitLines newStr).length)
    (splitLines oldStr) (splitLines newStr)

/-- Accumulator of the summarizer loop at source lines 193-205. -/
structure DiffAcc where
  hasChanges : Bool
  addedLines : Nat
  removedLines : Nat
  deriving DecidableEq

/-- One iteration of the loop at source lines 197-205: an added part sets
hasChanges and adds its count to addedLines, else a removed part sets
hasChanges and adds its count to removedLines, else nothing. -/
def stepPart (acc : DiffAcc) (part : DiffPart) : DiffAcc :=
  if part.added then ⟨true, acc.addedLines + part.count, acc.removedLines⟩
  else if part.removed then ⟨true, acc.addedLines, acc.removedLines + part.count⟩
  else acc

/-- Result record of calculateContentDiff (source lines 207-213). -/
structure ChangeSet where
  hasChanges : Bool
  addedLines : Nat
  removedLines : Nat
  diff : List DiffPart
  changesSummary : String
  deriving DecidableEq

/-- The change summarizer calculateContentDiff (source lines 190-214):
runs the line diff, folds the summarizer loop over its parts and formats
the summary string. -/
def calculateContentDiff (originalContent newContent : String) : ChangeSet :=
  let diff := diffLines originalContent newContent
  let acc := diff.foldl stepPart ⟨false, 0, 0⟩
  ⟨acc.hasChanges, acc.addedLines, acc.removedLines, diff,
    if acc.hasChanges then
      "+" ++ toString acc.addedLines ++ " -" ++ toString acc.removedLines ++ " lines"
    else "No changes"⟩

/-- The input validator validateInput (source lines 37-52), at the
required-argument setting used by every call site in the file.  A missing
or falsy input, or one that trims to the empty string, is rejected as
required; an input containing the exact lowercase substrings used at
source line 47 is rejected as unsafe; otherwise the trimmed input is
returned.  The typeof check at source line 42 is unreachable for the
string-typed inputs modelled here. -/
def validateInput (input : Option String) (field : String) : Except String String :=
  match input with
  | none => Except.error (field ++ " is required")
  | some s =>
    if s == "" || jsTrim s == "" then Except.error (field ++ " is required")
    else if strIncludes s "<script" || strIncludes s "javascript:" then
      Except.error (field ++ " contains potentially unsafe content")
    else Except.ok (jsTrim s)

/-- The remote document as fetched by handleConfluenceGetPage: version
number and the optional storage body, read at source lines 225-226 with a
missing body defaulting to the empty string. -/
structure Page where
  version : Nat
  body : Option String
  deriving DecidableEq

/-- Response of the remote store to the GET fetch: the page, or a
non-success HTTP response carrying status and status text (source lines
103-107). -/
inductive RemoteResp where
  | ok (page : Page)
  | httpError (status : Nat) (statusText : String)
  deriving DecidableEq

/-- Environment of one coordinator invocation: the fixed responses of the
remote store to the fetch and to the write. -/
structure Env where
  fetchResp : RemoteResp
  writeOk : Bool
  writeStatus : Nat
  writeStatusText : String
  deriving DecidableEq

/-- The PUT request body assembled at source lines 273-286: page id, new
title, proposed version number currentVersion + 1, and new body. -/
structure WriteRequest where
  id : String
  title : String
  versionNumber : Nat
  body : String
  deriving DecidableEq

/-- Outcome of one patch-update call: a thrown validation error, a thrown
remote error carrying status and status text, or one of the three
structured results with the fields the source attaches to each
(updateStatus no-changes at lines 236-241 and 260-267, conflict-detected
with conflictDetails at lines 244-254, success with patchInfo at lines
302-312). -/
inductive UpdateOutcome where
  | validationError (message : String)
  | remoteError (status : Nat) (statusText : String)
  | noChanges (currentVersion : Nat) (message : String)
  | conflictDetected (originalVersion currentVersion : Nat) (ourChanges : String)
      (requiresPermission : Bool)
  | success (changes : String) (addedLines removedLines originalVersion newVersion : Nat)
  deriving DecidableEq

/-- Observable result of one call: the outcome plus the number of fetch
calls made and the list of write requests issued, in order. -/
structure CallResult where
  outcome : UpdateOutcome
  fetchCalls : Nat
  writes : List WriteRequest
  deriving DecidableEq

/-- The conflict-check guard at source line 229, with JavaScript
truthiness: a null or absent originalVersion, and also the number 0, is
falsy and skips the check. -/
def conflictCheck (originalVersion : Option Nat) (currentVersion : Nat)
    (forceUpdate : Bool) : Bool :=
  match originalVersion with
  | none => false
  | some v => v != 0 && v != currentVersion && !forceUpdate

/-- The coordinator handleConfluencePatchUpdate (source lines 216-313).
Validation of the three string inputs comes first, in source order; then
the single fetch; then the conflict check; then the diff and, only on the
write path, the single PUT.  The inner revalidation of the already
sanitized page id inside handleConfluenceGetPage can never fail for an id
that passed the outer validation, so the fetch is modelled directly by
the environment response. -/
def handleConfluencePatchUpdate (env : Env) (pageId title newContent : Option String)
    (originalVersion : Option Nat) (forceUpdate : Bool) : CallResult :=
  match validateInput pageId "Page ID" with
  | Except.error e => ⟨UpdateOutcome.validationError e, 0, []⟩
  | Except.ok sanitizedPageId =>
    match validateInput title "Title" with
    | Except.error e => ⟨UpdateOutcome.validationError e, 0, []⟩
    | Except.ok sanitizedTitle =>
      match validateInput newContent "New content" with
      | Except.error e => ⟨UpdateOutcome.validationError e, 0, []⟩
      | Except.ok sanitizedNewContent =>
        match env.fetchResp with
        | RemoteResp.httpError status statusText =>
          ⟨UpdateOutcome.remoteError status statusText, 1, []⟩
        | RemoteResp.ok currentPage =>
          let currentVersion := currentPage.version
          let currentContent := currentPage.body.getD ""
          if conflictCheck originalVersion currentVersion forceUpdate then
            let ourChanges := calculateContentDiff currentContent sanitizedNewContent
            if !ourChanges.hasChanges then
              ⟨UpdateOutcome.noChanges currentVersion "Content is already up to date", 1, []⟩
            else
              ⟨UpdateOutcome.conflictDetected (originalVersion.getD 0) currentVersion
                ourChanges.changesSummary true, 1, []⟩
          else
            let changes := calculateContentDiff currentContent sanitizedNewContent
            if !changes.hasChanges then
              ⟨UpdateOutcome.noChanges currentVersion "Content is already up to date", 1, []⟩
            else
              let w : WriteRequest :=
                ⟨sanitizedPageId, sanitizedTitle, currentVersion + 1, sanitizedNewContent⟩
              if env.writeOk then
                ⟨UpdateOutcome.success changes.changesSummary changes.addedLines
                  changes.removedLines currentVersion (currentVersion + 1), 1, [w]⟩
              else
                ⟨UpdateOutcome.remoteError env.writeStatus env.writeStatusText, 1, [w]⟩

/-- Sum of the line counts over the segments tagged added. -/
def sumAddedParts : List DiffPart → Nat
  | [] => 0
  | p :: ps => (if p.added then p.count else 0) + sumAddedParts ps

/-- Sum of the line counts over the segments tagged removed. -/
def sumRemovedParts : List DiffPart → Nat
  | [] => 0
  | p :: ps => (if p.removed then p.count else 0) + sumRemovedParts ps

/-- Whether at least one segment is tagged added or removed. -/
def hasChangePart (ps : List DiffPart) : Bool :=
  ps.any (fun p => p.added || p.removed)

lemma foldl_stepPart (ps : List DiffPart) : ∀ acc : DiffAcc,
    ps.foldl stepPart acc =
      ⟨acc.hasChanges || hasChangePart ps,
       acc.addedLines + sumAddedParts ps,
       acc.removedLines + sumRemovedParts ps⟩ := by
  induction ps with
  | nil =>
    intro acc
    cases acc
    simp [hasChangePart, sumAddedParts, sumRemovedParts]
  | cons p ps ih =>
    intro acc
    cases acc with
    | mk h a r =>
      cases hk : p.kind <;>
        simp [stepPart, DiffPart.added, DiffPart.removed, hk, ih, hasChangePart,
          sumAddedParts, sumRemovedParts, Bool.or_assoc, Nat.add_assoc]

lemma calculateContentDiff_hasChanges (a b : String) :
    (calculateContentDiff a b).hasChanges = hasChangePart (diffLines a b) := by
  simp [calculateContentDiff, foldl_stepPart]

lemma calculateContentDiff_addedLines (a b : String) :
    (calculateContentDiff a b).addedLines = sumAddedParts (diffLines a b) := by
  simp [calculateContentDiff, foldl_stepPart]

lemma calculateContentDiff_removedLines (a b : String) :
    (calculateContentDiff a b).removedLines = sumRemovedParts (diffLines a b) := by
  simp [calculateContentDiff, foldl_stepPart]

lemma calculateContentDiff_diff (a b : String) :
    (calculateContentDiff a b).diff = diffLines a b := by
  simp [calculateContentDiff]

lemma diffLFuel_self (xs : List String) : ∀ f, xs.length ≤ f →
    diffLFuel f xs xs = List.replicate xs.length ⟨SegKind.unchanged, 1⟩ := by
  induction xs with
  | nil => intro f _; cases f <;> rfl
  | cons x xs ih =>
    intro f hf
    cases f with
    | zero => exact absurd hf (by simp)
    | succ f =>
      have hx : (x == x) = true := by simp
      simp only [diffLFuel, hx, if_true, List.length_cons, List.replicate]
      exact congrArg _ (ih f (Nat.le_of_succ_le_succ hf))

lemma diffLines_self (s : String) :
    diffLines s s = List.replicate (splitLines s).length ⟨SegKind.unchanged, 1⟩ := by
  exact diffLFuel_self (splitLines s) _ (Nat.le_add_right _ _)

lemma unchanged_replicate_no_change (n : Nat) :
    hasChangePart (List.replicate n ⟨SegKind.unchanged, 1⟩) = false ∧
    sumAddedParts (List.replicate n ⟨SegKind.unchanged, 1⟩) = 0 ∧
    sumRemovedParts (List.replicate n ⟨SegKind.unchanged, 1⟩) = 0 := by
  induction n with
  | zero => simp [hasChangePart, sumAddedParts, sumRemovedParts]
  | succ n ih =>
    simp [hasChangePart, sumAddedParts, sumRemovedParts, List.replicate,
      DiffPart.added, DiffPart.removed] at ih ⊢
    exact ih

lemma calculateContentDiff_self (a : String) :
    (calculateContentDiff a a).hasChanges = false ∧
    (calculateContentDiff a a).addedLines = 0 ∧
    (calculateContentDiff a a).removedLines = 0 := by
  refine ⟨?_, ?_, ?_⟩
  · rw [calculateContentDiff_hasChanges, diffLines_self]
    exact (unchanged_replicate_no_change _).1
  · rw [calculateContentDiff_addedLines, diffLines_self]
    exact (unchanged_replicate_no_change _).2.1
  · rw [calculateContentDiff_removedLines, diffLines_self]
    exact (unchanged_replicate_no_change _).2.2

lemma validateInput_ok_trim {o : Option String} {field out : String}
    (h : validateInput o field = Except.ok out) : ∃ s, o = some s ∧ out = jsTrim s := by
  cases o with
  | none => simp [validateInput] at h
  | some s =>
    refine ⟨s, rfl, ?_⟩
    simp only [validateInput] at h
    by_cases h1 : (s == "" || jsTrim s == "") = true
    · rw [if_pos h1] at h; cases h
    · rw [if_neg h1] at h
      by_cases h2 : (strIncludes s "<script" || strIncludes s "javascript:") = true
      · rw [if_pos h2] at h; cases h
      · rw [if_neg h2] at h
        cases h
        rfl

/-- C1: for every patch-update call with a present (positive) baseline
version that differs from the fetched current version, forceUpdate false,
and a non-empty diff of the new body against the current remote body, the
call returns conflict-detected with conflictDetails.originalVersion equal
to the callers baseline and conflictDetails.currentVersion equal to the
fetched version, and issues no write call. -/
theorem patch_conflict_detected (env : Env) (pageId title newContent : Option String)
    (pid stitle scontent : String) (v : Nat) (page : Page)
    (hpid : validateInput pageId "Page ID" = Except.ok pid)
    (htitle : validateInput title "Title" = Except.ok stitle)
    (hcontent : validateInput newContent "New content" = Except.ok scontent)
    (hfetch : env.fetchResp = RemoteResp.ok page)
    (hv : 0 < v)
    (hne : v ≠ page.version)
    (hch : (calculateContentDiff (page.body.getD "") scontent).hasChanges = true) :
    handleConfluencePatchUpdate env pageId title newContent (some v) false =
      ⟨UpdateOutcome.conflictDetected v page.version
        (calculateContentDiff (page.body.getD "") scontent).changesSummary true, 1, []⟩ := by
  have hv0 : v ≠ 0 := Nat.pos_iff_ne_zero.mp hv
  have hcc : conflictCheck (some v) page.version false = true := by
    simp [conflictCheck, hv0, hne]
  simp [handleConfluencePatchUpdate, hpid, htitle, hcontent, hfetch, hcc, hch]

theorem patch_conflict_detected_witness :
    handleConfluencePatchUpdate ⟨RemoteResp.ok ⟨5, some "a"⟩, true, 0, ""⟩
      (some "1") (some "T") (some "b") (some 2) false =
      ⟨UpdateOutcome.conflictDetected 2 5
        (calculateContentDiff "a" "b").changesSummary true, 1, []⟩ := by
  exact patch_conflict_detected ⟨RemoteResp.ok ⟨5, some "a"⟩, true, 0, ""⟩
    (some "1") (some "T") (some "b") "1" "T" "b" 2 ⟨5, some "a"⟩
    rfl rfl rfl rfl (by decide) (by decide) (by decide)

/-- C2: with the same stale-baseline setup but forceUpdate true and a
successful remote write, the call returns success, issues exactly one
write whose declared version number is currentVersion + 1 (expected prior
version currentVersion), and reports patchInfo.newVersion equal to
currentVersion + 1. -/
theorem patch_force_update_success (env : Env) (pageId title newContent : Option String)
    (pid stitle scontent : String) (v : Nat) (page : Page)
    (hpid : validateInput pageId "Page ID" = Except.ok pid)
    (htitle : validateInput title "Title" = Except.ok stitle)
    (hcontent : validateInput newContent "New content" = Except.ok scontent)
    (hfetch : env.fetchResp = RemoteResp.ok page)
    (_hv : 0 < v)
    (_hne : v ≠ page.version)
    (hwrite : env.writeOk = true)
    (hch : (calculateContentDiff (page.body.getD "") scontent).hasChanges = true) :
    handleConfluencePatchUpdate env pageId title newContent (some v) true =
      ⟨UpdateOutcome.success (calculateContentDiff (page.body.getD "") scontent).changesSummary
        (calculateContentDiff (page.body.getD "") scontent).addedLines
        (calculateContentDiff (page.body.getD "") scontent).removedLines
        page.version (page.version + 1), 1,
        [⟨pid, stitle, page.version + 1, scontent⟩]⟩ := by
  have hcc : conflictCheck (some v) page.version true = false := by
    simp [conflictCheck]
  simp [handleConfluencePatchUpdate, hpid, htitle, hcontent, hfetch, hcc, hch, hwrite]

theorem patch_force_update_success_witness :
    handleConfluencePatchUpdate ⟨RemoteResp.ok ⟨5, some "a"⟩, true, 0, ""⟩
      (some "1") (some "T") (some "b") (some 2) true =
      ⟨UpdateOutcome.success (calculateContentDiff "a" "b").changesSummary
        (calculateContentDiff "a" "b").addedLines
        (calculateContentDiff "a" "b").removedLines 5 6, 1,
        [⟨"1", "T", 6, "b"⟩]⟩ := by
  exact patch_force_update_success ⟨RemoteResp.ok ⟨5, some "a"⟩, true, 0, ""⟩
    (some "1") (some "T") (some "b") "1" "T" "b" 2 ⟨5, some "a"⟩
    rfl rfl rfl rfl (by decide) (by decide) rfl (by decide)

/-- C3 counterexample: the claim fails as stated for a body with leading
whitespace.  With the document body exactly equal to the requested body
" x" and an absent baseline, the call returns success and issues one
write, because the coordinator diffs the trimmed body "x" against the
untrimmed remote body " x". -/
theorem patch_noop_raw_body_counterexample :
    handleConfluencePatchUpdate ⟨RemoteResp.ok ⟨3, some " x"⟩, true, 0, ""⟩
      (some "p1") (some "T") (some " x") none false =
      ⟨UpdateOutcome.success "+1 -1 lines" 1 1 3 4, 1, [⟨"p1", "T", 4, "x"⟩]⟩ := by
  decide

/-- C3 amended: for every body B accepted by input validation, a
patch-update call against a document whose current remote body equals the
trimmed form of B returns the no-changes outcome and issues zero write
calls, regardless of the baseline version (present or absent) and of
forceUpdate, on the conflict-check path as well as on the no-conflict
path. -/
theorem patch_noop_trimmed_body (env : Env) (pageId title newContent : Option String)
    (originalVersion : Option Nat) (forceUpdate : Bool)
    (pid stitle scontent : String) (page : Page)
    (hpid : validateInput pageId "Page ID" = Except.ok pid)
    (htitle : validateInput title "Title" = Except.ok stitle)
    (hcontent : validateInput newContent "New content" = Except.ok scontent)
    (hfetch : env.fetchResp = RemoteResp.ok page)
    (hbody : page.body.getD "" = scontent) :
    handleConfluencePatchUpdate env pageId title newContent originalVersion forceUpdate =
      ⟨UpdateOutcome.noChanges page.version "Content is already up to date", 1, []⟩ := by
  have hch : (calculateContentDiff (page.body.getD "") scontent).hasChanges = false := by
    rw [hbody]
    exact (calculateContentDiff_self scontent).1
  cases hcc : conflictCheck originalVersion page.version forceUpdate <;>
    simp [handleConfluencePatchUpdate, hpid, htitle, hcontent, hfetch, hcc, hch]

theorem patch_noop_trimmed_body_witness :
    handleConfluencePatchUpdate ⟨RemoteResp.ok ⟨3, some "x"⟩, true, 0, ""⟩
      (some "p1") (some "T") (some " x ") (some 7) false =
      ⟨UpdateOutcome.noChanges 3 "Content is already up to date", 1, []⟩ := by
  exact patch_noop_trimmed_body ⟨RemoteResp.ok ⟨3, some "x"⟩, true, 0, ""⟩
    (some "p1") (some "T") (some " x ") (some 7) false "p1" "T" "x" ⟨3, some "x"⟩
    rfl rfl rfl rfl rfl

/-- C4: for every pair of input strings the summarizer reports hasChanges
exactly when the line diff contains a segment tagged added or removed,
addedLines is the sum of line counts over added segments, removedLines
the sum over removed segments, and identical inputs give hasChanges false
with both counts zero. -/
theorem summarizer_counts_correct (a b : String) :
    (calculateContentDiff a b).hasChanges = hasChangePart ((calculateContentDiff a b).diff) ∧
    (calculateContentDiff a b).addedLines = sumAddedParts ((calculateContentDiff a b).diff) ∧
    (calculateContentDiff a b).removedLines = sumRemovedParts ((calculateContentDiff a b).diff) ∧
    (a = b → (calculateContentDiff a b).hasChanges = false ∧
      (calculateContentDiff a b).addedLines = 0 ∧
      (calculateContentDiff a b).removedLines = 0) := by
  refine ⟨?_, ?_, ?_, ?_⟩
  · rw [calculateContentDiff_diff]; exact calculateContentDiff_hasChanges a b
  · rw [calculateContentDiff_diff]; exact calculateContentDiff_addedLines a b
  · rw [calculateContentDiff_diff]; exact calculateContentDiff_removedLines a b
  · intro h
    subst h
    exact calculateContentDiff_self a

theorem summarizer_counts_correct_witness :
    (calculateContentDiff "ab" "ab").hasChanges = false ∧
    (calculateContentDiff "ab" "ab").addedLines = 0 ∧
    (calculateContentDiff "ab" "ab").removedLines = 0 :=
  (summarizer_counts_correct "ab" "ab").2.2.2 rfl

/-- C5: for the concrete old body of three lines and new body of four
lines given in the spec, the summarizer reports two added lines, one
removed line and hasChanges true. -/
theorem diff_concrete_scenario :
    (calculateContentDiff "line1\nline2\nline3" "line1\nlineX\nline3\nline4").addedLines = 2 ∧
    (calculateContentDiff "line1\nline2\nline3" "line1\nlineX\nline3\nline4").removedLines = 1 ∧
    (calculateContentDiff "line1\nline2\nline3" "line1\nlineX\nline3\nline4").hasChanges = true := by
  decide

/-- C6: with an absent baseline version the conflict check is skipped and
the call lands on the no-conflict path: for every fetched current version
it returns success (issuing the single write) when the diff of the new
body against the current remote body is non-empty, and no-changes with no
write when it is empty. -/
theorem baseline_absent_skips_conflict (env : Env) (pageId title newContent : Option String)
    (forceUpdate : Bool) (pid stitle scontent : String) (page : Page)
    (hpid : validateInput pageId "Page ID" = Except.ok pid)
    (htitle : validateInput title "Title" = Except.ok stitle)
    (hcontent : validateInput newContent "New content" = Except.ok scontent)
    (hfetch : env.fetchResp = RemoteResp.ok page)
    (hwrite : env.writeOk = true) :
    ((calculateContentDiff (page.body.getD "") scontent).hasChanges = true →
      handleConfluencePatchUpdate env pageId title newContent none forceUpdate =
        ⟨UpdateOutcome.success (calculateContentDiff (page.body.getD "") scontent).changesSummary
          (calculateContentDiff (page.body.getD "") scontent).addedLines
          (calculateContentDiff (page.body.getD "") scontent).removedLines
          page.version (page.version + 1), 1,
          [⟨pid, stitle, page.version + 1, scontent⟩]⟩) ∧
    ((calculateContentDiff (page.body.getD "") scontent).hasChanges = false →
      handleConfluencePatchUpdate env pageId title newContent none forceUpdate =
        ⟨UpdateOutcome.noChanges page.version "Content is already up to date", 1, []⟩) := by
  have hcc : conflictCheck none page.version forceUpdate = false := rfl
  constructor <;> intro hch <;>
    simp [handleConfluencePatchUpdate, hpid, htitle, hcontent, hfetch, hcc, hch, hwrite]

theorem baseline_absent_skips_conflict_witness :
    handleConfluencePatchUpdate ⟨RemoteResp.ok ⟨4, some "a"⟩, true, 0, ""⟩
      (some "1") (some "T") (some "b") none false =
      ⟨UpdateOutcome.success (calculateContentDiff "a" "b").changesSummary
        (calculateContentDiff "a" "b").addedLines
        (calculateContentDiff "a" "b").removedLines 4 5, 1, [⟨"1", "T", 5, "b"⟩]⟩ :=
  (baseline_absent_skips_conflict ⟨RemoteResp.ok ⟨4, some "a"⟩, true, 0, ""⟩
    (some "1") (some "T") (some "b") false "1" "T" "b" ⟨4, some "a"⟩
    rfl rfl rfl rfl rfl).1 (by decide)

/-- C7: a call whose page id, title or body is missing or empty fails
with a validation error and issues zero fetch calls and zero write calls:
all three inputs are validated before the first network call. -/
theorem validation_precedes_io (env : Env) (pageId title newContent : Option String)
    (originalVersion : Option Nat) (forceUpdate : Bool)
    (h : pageId = none ∨ pageId = some "" ∨ title = none ∨ title = some "" ∨
      newContent = none ∨ newContent = some "") :
    ∃ m, handleConfluencePatchUpdate env pageId title newContent originalVersion forceUpdate =
      ⟨UpdateOutcome.validationError m, 0, []⟩ := by
  rcases h with h | h | h | h | h | h
  · subst h; exact ⟨_, rfl⟩
  · subst h; exact ⟨_, rfl⟩
  · subst h
    cases hpid : validateInput pageId "Page ID" with
    | error e => exact ⟨e, by simp [handleConfluencePatchUpdate, hpid]⟩
    | ok s => exact ⟨_, by simp [handleConfluencePatchUpdate, hpid]; rfl⟩
  · subst h
    cases hpid : validateInput pageId "Page ID" with
    | error e => exact ⟨e, by simp [handleConfluencePatchUpdate, hpid]⟩
    | ok s => exact ⟨_, by simp [handleConfluencePatchUpdate, hpid]; rfl⟩
  · subst h
    cases hpid : validateInput pageId "Page ID" with
    | error e => exact ⟨e, by simp [handleConfluencePatchUpdate, hpid]⟩
    | ok s =>
      cases htitle : validateInput title "Title" with
      | error e => exact ⟨e, by simp [handleConfluencePatchUpdate, hpid, htitle]⟩
      | ok s2 => exact ⟨_, by simp [handleConfluencePatchUpdate, hpid, htitle]; rfl⟩
  · subst h
    cases hpid : validateInput pageId "Page ID" with
    | error e => exact ⟨e, by simp [handleConfluencePatchUpdate, hpid]⟩
    | ok s =>
      cases htitle : validateInput title "Title" with
      | error e => exact ⟨e, by simp [handleConfluencePatchUpdate, hpid, htitle]⟩
      | ok s2 => exact ⟨_, by simp [handleConfluencePatchUpdate, hpid, htitle]; rfl⟩

theorem validation_precedes_io_witness :
    ∃ m, handleConfluencePatchUpdate ⟨RemoteResp.ok ⟨1, some "y"⟩, true, 0, ""⟩
      (some "") (some "T") (some "B") none false =
      ⟨UpdateOutcome.validationError m, 0, []⟩ :=
  validation_precedes_io ⟨RemoteResp.ok ⟨1, some "y"⟩, true, 0, ""⟩
    (some "") (some "T") (some "B") none false (Or.inr (Or.inl rfl))

/-- C8: a non-success response from the remote store aborts the whole
call with a hard error carrying the status code and status text, none of
the three structured outcomes is returned and no retry happens: a failed
fetch means exactly one fetch, no write at all; a failed write on the
write path means exactly one attempted write. -/
theorem remote_failure_aborts (env : Env) (pageId title newContent : Option String)
    (originalVersion : Option Nat) (forceUpdate : Bool)
    (pid stitle scontent : String)
    (hpid : validateInput pageId "Page ID" = Except.ok pid)
    (htitle : validateInput title "Title" = Except.ok stitle)
    (hcontent : validateInput newContent "New content" = Except.ok scontent) :
    (∀ st sx, env.fetchResp = RemoteResp.httpError st sx →
      handleConfluencePatchUpdate env pageId title newContent originalVersion forceUpdate =
        ⟨UpdateOutcome.remoteError st sx, 1, []⟩) ∧
    (∀ page, env.fetchResp = RemoteResp.ok page →
      env.writeOk = false →
      conflictCheck originalVersion page.version forceUpdate = false →
      (calculateContentDiff (page.body.getD "") scontent).hasChanges = true →
      handleConfluencePatchUpdate env pageId title newContent originalVersion forceUpdate =
        ⟨UpdateOutcome.remoteError env.writeStatus env.writeStatusText, 1,
          [⟨pid, stitle, page.version + 1, scontent⟩]⟩) := by
  constructor
  · intro st sx hf
    simp [handleConfluencePatchUpdate, hpid, htitle, hcontent, hf]
  · intro page hf hw hcc hch
    simp [handleConfluencePatchUpdate, hpid, htitle, hcontent, hf, hcc, hch, hw]

theorem remote_failure_aborts_witness :
    handleConfluencePatchUpdate ⟨RemoteResp.httpError 404 "Not Found", true, 0, ""⟩
      (some "1") (some "T") (some "b") none false =
      ⟨UpdateOutcome.remoteError 404 "Not Found", 1, []⟩ :=
  (remote_failure_aborts ⟨RemoteResp.httpError 404 "Not Found", true, 0, ""⟩
    (some "1") (some "T") (some "b") none false "1" "T" "b"
    rfl rfl rfl).1 404 "Not Found" rfl

/-- C9 counterexample: the claim fails as stated when the remote body
itself carries edge whitespace.  With remote body " x" and new body "x",
differing only by one leading space, the coordinator diffs the trimmed
input "x" against the untrimmed remote body " x", finds changes, and
issues the write, returning success rather than the no-changes outcome. -/
theorem patch_trim_whitespace_counterexample :
    handleConfluencePatchUpdate ⟨RemoteResp.ok ⟨3, some " x"⟩, true, 0, ""⟩
      (some "p2") (some "T") (some "x") none false =
      ⟨UpdateOutcome.success "+1 -1 lines" 1 1 3 4, 1, [⟨"p2", "T", 4, "x"⟩]⟩ := by
  decide

/-- C9 amended: the title and body the coordinator diffs and writes are
the trimmed forms of the caller inputs: every write request issued
carries jsTrim of the given title and body, and a new body whose trimmed
form equals the current remote body produces the no-changes outcome with
zero writes. -/
theorem patch_uses_trimmed_inputs (env : Env) (pageId : Option String) (t b : String)
    (originalVersion : Option Nat) (forceUpdate : Bool)
    (pid stitle scontent : String) (page : Page)
    (hpid : validateInput pageId "Page ID" = Except.ok pid)
    (htitle : validateInput (some t) "Title" = Except.ok stitle)
    (hcontent : validateInput (some b) "New content" = Except.ok scontent) :
    (∀ w ∈ (handleConfluencePatchUpdate env pageId (some t) (some b) originalVersion
        forceUpdate).writes, w.title = jsTrim t ∧ w.body = jsTrim b) ∧
    (env.fetchResp = RemoteResp.ok page → page.body.getD "" = jsTrim b →
      handleConfluencePatchUpdate env pageId (some t) (some b) originalVersion forceUpdate =
        ⟨UpdateOutcome.noChanges page.version "Content is already up to date", 1, []⟩) := by
  obtain ⟨t2, ht2, hst⟩ := validateInput_ok_trim htitle
  obtain ⟨b2, hb2, hsc⟩ := validateInput_ok_trim hcontent
  injection ht2 with ht2
  subst ht2
  injection hb2 with hb2
  subst hb2
  subst hst
  subst hsc
  constructor
  · intro w hw
    obtain ⟨fr, wo, ws, wt⟩ := env
    cases fr with
    | httpError st sx =>
      simp [handleConfluencePatchUpdate, hpid, htitle, hcontent] at hw
    | ok page2 =>
      cases hcc : conflictCheck originalVersion page2.version forceUpdate with
      | true =>
        cases hch : (calculateContentDiff (page2.body.getD "") (jsTrim b)).hasChanges <;>
          simp [handleConfluencePatchUpdate, hpid, htitle, hcontent, hcc, hch] at hw
      | false =>
        cases hch : (calculateContentDiff (page2.body.getD "") (jsTrim b)).hasChanges with
        | false =>
          simp [handleConfluencePatchUpdate, hpid, htitle, hcontent, hcc, hch] at hw
        | true =>
          cases wo <;>
            simp [handleConfluencePatchUpdate, hpid, htitle, hcontent, hcc, hch] at hw <;>
            subst hw <;> exact ⟨rfl, rfl⟩
  · intro hf hbody
    have hch : (calculateContentDiff (page.body.getD "") (jsTrim b)).hasChanges = false := by
      rw [hbody]
      exact (calculateContentDiff_self (jsTrim b)).1
    cases hcc : conflictCheck originalVersion page.version forceUpdate <;>
      simp [handleConfluencePatchUpdate, hpid, htitle, hcontent, hf, hcc, hch]

theorem patch_uses_trimmed_inputs_witness :
    handleConfluencePatchUpdate ⟨RemoteResp.ok ⟨3, some "x"⟩, true, 0, ""⟩
      (some "p1") (some " T ") (some "  x") none false =
      ⟨UpdateOutcome.noChanges 3 "Content is already up to date", 1, []⟩ :=
  (patch_uses_trimmed_inputs ⟨RemoteResp.ok ⟨3, some "x"⟩, true, 0, ""⟩
    (some "p1") " T " "  x" none false "p1" "T" "x" ⟨3, some "x"⟩
    rfl rfl rfl).2 rfl rfl

/-- C10: the validator accepts a present string input exactly when its
trimmed form is non-empty and it contains neither of the exact lowercase
substrings used by the source; in particular an uppercase script tag is
accepted and such a call reaches the network with one fetch. -/
theorem validate_input_characterization :
    (∀ (o : Option String) (field : String),
      (∃ s, validateInput o field = Except.ok s) ↔
        (∃ inp, o = some inp ∧ jsTrim inp ≠ "" ∧
          strIncludes inp "<script" = false ∧ strIncludes inp "javascript:" = false)) ∧
    validateInput (some "<SCRIPT>x</SCRIPT>") "Content" = Except.ok "<SCRIPT>x</SCRIPT>" ∧
    (handleConfluencePatchUpdate ⟨RemoteResp.ok ⟨1, some "y"⟩, true, 0, ""⟩
      (some "1") (some "T") (some "<SCRIPT>x</SCRIPT>") none false).fetchCalls = 1 := by
  refine ⟨?_, rfl, rfl⟩
  intro o field
  constructor
  · rintro ⟨s, hs⟩
    cases o with
    | none => simp [validateInput] at hs
    | some inp =>
      refine ⟨inp, rfl, ?_⟩
      simp only [validateInput] at hs
      by_cases h1 : (inp == "" || jsTrim inp == "") = true
      · rw [if_pos h1] at hs; cases hs
      · rw [if_neg h1] at hs
        by_cases h2 : (strIncludes inp "<script" || strIncludes inp "javascript:") = true
        · rw [if_pos h2] at hs; cases hs
        · rw [if_neg h2] at hs
          simp only [Bool.or_eq_true, not_or, beq_iff_eq] at h1 h2
          refine ⟨h1.2, ?_, ?_⟩
          · exact Bool.not_eq_true _ ▸ Bool.of_not_eq_true h2.1
          · exact Bool.not_eq_true _ ▸ Bool.of_not_eq_true h2.2
  · rintro ⟨inp, rfl, h1, h2, h3⟩
    have hinp : (inp == "") = false := by
      refine beq_eq_false_iff_ne.mpr ?_
      intro he
      exact h1 (by rw [he]; rfl)
    have htr : (jsTrim inp == "") = false := beq_eq_false_iff_ne.mpr h1
    exact ⟨jsTrim inp, by simp [validateInput, hinp, htr, h2, h3]⟩

theorem validate_input_characterization_witness :
    ∃ s, validateInput (some "abc") "Field" = Except.ok s :=
  ((validate_input_characterization).1 (some "abc") "Field").mpr
    ⟨"abc", rfl, by decide, rfl, rfl⟩

end ConfluenceMcp
